import Mathlib

/-!
Shallow embedding of the ReqBot requirement-engineering chatbot (`app.py`).

Strings are modelled as `List Char`; Python string methods used by the
program (`lower`, `replace`, `strip`, the `in` substring test) are given
executable Lean counterparts below.  Python `lower()` is modelled by ASCII
case folding, which agrees with Python on every label the program handles.
-/

namespace ReqBot

/-- Python `s.startswith(pat)` on character lists: `pat` is a prefix of `s`. -/
def startsWith : List Char → List Char → Bool
  | _, [] => true
  | [], _ :: _ => false
  | c :: s, p :: ps => (c == p) && startsWith s ps

/-- Python `pat in s` on character lists: `pat` occurs contiguously in `s`. -/
def pyIn (pat : List Char) : List Char → Bool
  | [] => startsWith [] pat
  | c :: rest => startsWith (c :: rest) pat || pyIn pat rest

/-- Python `s.lower()` (ASCII case folding). -/
def pyLower (s : List Char) : List Char := s.map Char.toLower

/-- Worker for `pyReplace`; the fuel argument starts at `s.length`, which is
enough for a non-empty pattern since every step consumes at least one input
character.  Structural recursion keeps every application kernel-reducible. -/
def pyReplaceAux (pat repl : List Char) : Nat → List Char → List Char
  | _, [] => []
  | 0, s => s
  | n + 1, c :: rest =>
    if startsWith (c :: rest) pat then
      repl ++ pyReplaceAux pat repl n (rest.drop (pat.length - 1))
    else
      c :: pyReplaceAux pat repl n rest

/-- Python `s.replace(pat, repl)`: replace every occurrence of `pat` in `s`
left to right, non-overlapping.  The program only ever calls it with a
non-empty `pat`. -/
def pyReplace (s pat repl : List Char) : List Char :=
  pyReplaceAux pat repl s.length s

/-- The whitespace characters removed by Python `str.strip()`. -/
def pyIsSpace (c : Char) : Bool :=
  c == ' ' || c == '\t' || c == '\n' || c == '\x0d' || c == '\x0b' || c == '\x0c'

/-- Python `s.strip()`: drop leading and trailing whitespace. -/
def pyStrip (s : List Char) : List Char :=
  ((s.dropWhile pyIsSpace).reverse.dropWhile pyIsSpace).reverse

/-- The four canonical category keys (`app.py` session-state dictionary,
lines 22-27). -/
inductive CategoryKey where
  | functional
  | non_functional
  | domain
  | inverse
deriving DecidableEq

/-- The category-resolution logic of `add_requirement` (`app.py` lines
94-104): lower-case the label, replace spaces by underscores, then run the
fixed chain of substring tests with `functional` as the default. -/
def resolve_category (label : List Char) : CategoryKey :=
  let category := pyReplace (pyLower label) [' '] ['_']
  if pyIn "functional".data category then CategoryKey.functional
  else if pyIn "non_functional".data category || pyIn "non-functional".data category then
    CategoryKey.non_functional
  else if pyIn "domain".data category then CategoryKey.domain
  else if pyIn "inverse".data category then CategoryKey.inverse
  else CategoryKey.functional

/-- A decoded JSON value, as produced by the standard-library decoder.
`obj` is a JSON object (Python dict: keys are unique, insertion-ordered);
`str` is a JSON string.  `other` covers every remaining JSON value (array,
number, boolean, null), carrying its textual rendering: the program treats
all of them identically — subscripting them raises, and interpolating them
into the reply renders their text. -/
inductive Json where
  | obj : List (List Char × Json) → Json
  | str : List Char → Json
  | other : List Char → Json

/-- Python `value[key]` on a decoded JSON value: `none` models the raised
`KeyError` (missing key) or `TypeError` (non-object value). -/
def Json.lookup : Json → List Char → Option Json
  | Json.obj fields, k => (fields.find? (fun p => p.1 == k)).map Prod.snd
  | Json.str _, _ => none
  | Json.other _, _ => none

/-- Outcome of the external `model.generate_content` call: either an
exception, or a complete response text. -/
inductive GenResult where
  | error
  | ok : List Char → GenResult

/-- The three field names of the expected structured response. -/
def clsKey : List Char := "classification".data

def explKey : List Char := "explanation".data

def rewKey : List Char := "suggested_rewrite".data

/-- The fixed fallback classification result (`app.py` lines 86-90). -/
def fallbackResult (requirement_text : List Char) : Json :=
  Json.obj
    [(clsKey, Json.str "Unknown".data),
     (explKey, Json.str "Failed to classify".data),
     (rewKey, Json.str requirement_text)]

/-- The response post-processing of `classify_requirement` (`app.py` line
79): remove every occurrence of the markdown fences, then strip surrounding
whitespace.  The result is the string handed to the JSON decoder. -/
def strip_fences (response_text : List Char) : List Char :=
  pyStrip (pyReplace (pyReplace response_text "```json".data []) "```".data [])

/-- `classify_requirement` (`app.py` lines 47-90).  The external model call
is an oracle (`gen`), and the standard-library `json.loads` is an oracle
`loads` returning `none` when decoding raises.  The single `try/except`
turns a transport error or a decode error into the fallback result; a value
that does decode is returned unmodified. -/
def classify_requirement (loads : List Char → Option Json) (gen : GenResult)
    (requirement_text : List Char) : Json :=
  match gen with
  | GenResult.error => fallbackResult requirement_text
  | GenResult.ok response_text =>
    match loads (strip_fences response_text) with
    | none => fallbackResult requirement_text
    | some result => result

/-- One classified-requirement record (`app.py` lines 106-111).  `rewritten`
and `explanation` hold whatever JSON values the decoded response carried. -/
structure Entry where
  original : List Char
  rewritten : Json
  explanation : Json
  timestamp : Nat

/-- The requirements dictionary: a Python dict from key strings to lists of
records, kept as an insertion-ordered association list so that key presence
is a real property of the state. -/
abbrev ReqDict := List (List Char × List Entry)

/-- Python `d[k].append(e)`: `none` models the `KeyError` raised when `k` is
absent. -/
def dictAppend (d : ReqDict) (k : List Char) (e : Entry) : Option ReqDict :=
  match d with
  | [] => none
  | (k0, v) :: rest =>
    if k0 = k then some ((k0, v ++ [e]) :: rest)
    else (dictAppend rest k e).map (fun t => (k0, v) :: t)

/-- Python `d[k]` read access on the requirements dictionary. -/
def lookupD (d : ReqDict) (k : List Char) : Option (List Entry) :=
  (d.find? (fun p => p.1 == k)).map Prod.snd

/-- The key string stored in the session dictionary for each category. -/
def keyString : CategoryKey → List Char
  | CategoryKey.functional => "functional".data
  | CategoryKey.non_functional => "non_functional".data
  | CategoryKey.domain => "domain".data
  | CategoryKey.inverse => "inverse".data

/-- `add_requirement` (`app.py` lines 93-113): resolve the category from the
`classification` field (raising — `none` — when the field is missing or not
a string), build the record from the `suggested_rewrite` and `explanation`
fields (raising when absent), and append it under the resolved key. -/
def add_requirement (original_text : List Char) (classification_result : Json)
    (now : Nat) (reqs : ReqDict) : Option ReqDict :=
  match classification_result.lookup clsKey with
  | some (Json.str lbl) =>
    let category_key := resolve_category lbl
    match classification_result.lookup rewKey, classification_result.lookup explKey with
    | some rew, some expl =>
      dictAppend reqs (keyString category_key)
        { original := original_text, rewritten := rew, explanation := expl, timestamp := now }
    | _, _ => none
  | _ => none

/-- One chat message (`app.py` lines 151-155 and 178-183): user turns carry
no category, assistant turns carry the classification value. -/
structure ChatTurn where
  role : List Char
  content : List Char
  category : Option Json
  timestamp : Nat

/-- The per-session state: `messages` is the conversation log, and
`requirements` the requirements store (`app.py` lines 19-27). -/
structure SessionState where
  messages : List ChatTurn
  requirements : ReqDict

/-- The freshly initialized requirements dictionary (`app.py` lines 22-27):
all four keys present, each holding an empty list. -/
def initRequirements : ReqDict :=
  [("functional".data, []), ("non_functional".data, []),
   ("domain".data, []), ("inverse".data, [])]

/-- The session state at session start. -/
def initState : SessionState := { messages := [], requirements := initRequirements }

mutual

/-- Python `str()` of a decoded JSON value, as interpolated into the reply
f-string.  Strings render verbatim (the only case any verified property
depends on); `other` values carry their own rendering; objects render as a
brace-delimited field list. -/
def pyStr : Json → List Char
  | Json.str s => s
  | Json.other t => t
  | Json.obj fields => Char.ofNat 123 :: pyStrFields fields ++ [Char.ofNat 125]

/-- Rendering of an object's field list for `pyStr`. -/
def pyStrFields : List (List Char × Json) → List Char
  | [] => []
  | (k, v) :: rest =>
    k ++ ':' :: ' ' :: pyStr v ++ (if rest.isEmpty then [] else [',', ' ']) ++ pyStrFields rest

end

/-- The assistant reply text (`app.py` lines 169-175): the f-string skeleton
with the three response values interpolated. -/
def renderBot (category explanation rew : Json) : List Char :=
  "\n        **Classification:** ".data ++ pyStr category ++
  "\n        \n        **Explanation:** ".data ++ pyStr explanation ++
  "\n        \n        **Suggested Rewrite:** ".data ++ pyStr rew ++
  "\n        ".data

/-- Outcome of processing one submission: either the handler ran to
completion, or an exception escaped it; in both cases the session state as
mutated up to that point is kept (the UI framework preserves session state
across an exception and merely displays the error). -/
inductive StepResult where
  | ok : SessionState → StepResult
  | raised : SessionState → StepResult

/-- The session state left behind by a (possibly raising) submission. -/
def StepResult.state : StepResult → SessionState
  | StepResult.ok s => s
  | StepResult.raised s => s

/-- The submission handler (`app.py` lines 149-185): on non-empty input,
append the user turn, classify, add the requirement (which may raise on a
decoded value lacking the expected fields), extract the fields for the
reply, and append the assistant turn.  `t1`, `t2`, `t3` are the three
successive clock readings. -/
def handleSubmission (loads : List Char → Option Json) (gen : GenResult)
    (t1 t2 t3 : Nat) (user_input : List Char) (s : SessionState) : StepResult :=
  if user_input = [] then StepResult.ok s
  else
    let s1 : SessionState :=
      { s with messages := s.messages ++
          [{ role := "user".data, content := user_input, category := none, timestamp := t1 }] }
    let classification_result := classify_requirement loads gen user_input
    match add_requirement user_input classification_result t2 s1.requirements with
    | none => StepResult.raised s1
    | some reqs2 =>
      let s2 : SessionState := { s1 with requirements := reqs2 }
      match classification_result.lookup clsKey, classification_result.lookup explKey,
            classification_result.lookup rewKey with
      | some category, some explanation, some rew =>
        StepResult.ok
          { s2 with messages := s2.messages ++
              [{ role := "assistant".data, content := renderBot category explanation rew,
                 category := some category, timestamp := t3 }] }
      | _, _, _ => StepResult.raised s2

/-- The sidebar "Clear All Requirements" handler (`app.py` lines 126-134):
reset the requirements dictionary to four empty lists and empty the chat. -/
def clearAllRequirements (s : SessionState) : SessionState :=
  { s with requirements := initRequirements, messages := [] }

/-- The bottom "Clear Chat" handler (`app.py` lines 193-202): empty the chat
and reset the requirements dictionary to four empty lists. -/
def clearChat (s : SessionState) : SessionState :=
  { s with messages := [], requirements := initRequirements }

/-- The message-display slice (`app.py` line 188): Python `messages[-10:]`,
the last ten turns (all of them when fewer than ten exist). -/
def displayedMessages (log : List ChatTurn) : List ChatTurn :=
  log.drop (log.length - 10)

/-- The display pass over the session state: it produces the turns to render
and leaves the state untouched. -/
def renderStep (s : SessionState) : SessionState × List ChatTurn :=
  (s, displayedMessages s.messages)

/-- A decoded value carrying the three expected fields, with a string
`classification` (the shape on which the submission pipeline completes). -/
def hasFields (j : Json) : Bool :=
  (match j.lookup clsKey with
   | some (Json.str _) => true
   | _ => false) &&
  (j.lookup explKey).isSome && (j.lookup rewKey).isSome

/-- The requirements dictionary holds exactly the four category keys, in
their initialization order. -/
def StoreWF (d : ReqDict) : Prop :=
  d.map Prod.fst =
    ["functional".data, "non_functional".data, "domain".data, "inverse".data]

/-- The session states reachable in a session: the initial state, followed by
any sequence of submissions (raising or not) and clear actions. -/
inductive Reachable : SessionState → Prop where
  | init : Reachable initState
  | submit {s : SessionState} (loads : List Char → Option Json) (gen : GenResult)
      (t1 t2 t3 : Nat) (input : List Char) :
      Reachable s → Reachable (handleSubmission loads gen t1 t2 t3 input s).state
  | clearA {s : SessionState} : Reachable s → Reachable (clearAllRequirements s)
  | clearC {s : SessionState} : Reachable s → Reachable (clearChat s)

/-! ### Concrete instances used by counterexamples and witnesses -/

/-- The serialized empty JSON object, `\x7b\x7d`. -/
def emptyObjText : List Char := "\x7b\x7d".data

/-- A concrete decoder oracle agreeing with `json.loads` on the inputs the
concrete scenarios feed it: the empty-object text decodes to the empty
object, everything else fails to decode. -/
def loads0 : List Char → Option Json :=
  fun s => if s = emptyObjText then some (Json.obj []) else none

/-- A concrete requirement text. -/
def reqA : List Char := "Allow password reset".data

/-- The submission text of the functional-submission scenario. -/
def inputC4 : List Char := "The system shall allow login via email".data

/-- The mocked classifier response of the functional-submission scenario. -/
def mockCr : Json :=
  Json.obj
    [(clsKey, Json.str "Functional".data),
     (explKey, Json.str "Describes a feature".data),
     (rewKey, Json.str inputC4)]

/-- A response text with fence markers inside a JSON string value. -/
def innerFenceText : List Char := "\x7b\"note\": \"a ```json b``` c\"\x7d".data

/-- `innerFenceText` after fence removal and stripping: the markers are gone
from inside the string value as well. -/
def innerFenceStripped : List Char := "\x7b\"note\": \"a  b c\"\x7d".data

end ReqBot

namespace ReqBot

/-! ### Helper lemmas -/

theorem startsWith_iff (pat : List Char) :
    ∀ s : List Char, startsWith s pat = true ↔ pat <+: s := by
  induction pat with
  | nil => intro s; cases s <;> simp [startsWith]
  | cons p ps ih =>
    intro s
    cases s with
    | nil => simp [startsWith]
    | cons c s' =>
      simp only [startsWith, Bool.and_eq_true, beq_iff_eq, ih, List.cons_prefix_cons]
      exact ⟨fun ⟨h, h2⟩ => ⟨h.symm, h2⟩, fun ⟨h, h2⟩ => ⟨h.symm, h2⟩⟩

theorem pyIn_iff (pat s : List Char) : pyIn pat s = true ↔ pat <:+: s := by
  induction s with
  | nil => simp [pyIn, startsWith_iff]
  | cons c rest ih => simp [pyIn, startsWith_iff, ih, List.infix_cons_iff]

/-- The `non_functional` branch of `resolve_category` is dead: any label
matching one of its markers also contains `functional`, so the first branch
fires first. -/
theorem resolve_category_never_non_functional (lbl : List Char) :
    resolve_category lbl = CategoryKey.functional ∨
      resolve_category lbl = CategoryKey.domain ∨
      resolve_category lbl = CategoryKey.inverse := by
  unfold resolve_category
  by_cases h1 : pyIn "functional".data (pyReplace (pyLower lbl) [' '] ['_']) = true
  · simp [h1]
  · have h2 : pyIn "non_functional".data (pyReplace (pyLower lbl) [' '] ['_']) = false := by
      rw [Bool.eq_false_iff]
      intro hc
      exact h1 ((pyIn_iff _ _).mpr
        (List.IsInfix.trans (by decide) ((pyIn_iff _ _).mp hc)))
    have h3 : pyIn "non-functional".data (pyReplace (pyLower lbl) [' '] ['_']) = false := by
      rw [Bool.eq_false_iff]
      intro hc
      exact h1 ((pyIn_iff _ _).mpr
        (List.IsInfix.trans (by decide) ((pyIn_iff _ _).mp hc)))
    simp only [h1, h2, h3, Bool.or_self, if_false, Bool.false_eq_true]
    split
    · exact Or.inr (Or.inl rfl)
    · split
      · exact Or.inr (Or.inr rfl)
      · exact Or.inl rfl

end ReqBot

namespace ReqBot

theorem storeWF_cases {d : ReqDict} (h : StoreWF d) :
    ∃ v1 v2 v3 v4,
      d = [("functional".data, v1), ("non_functional".data, v2),
           ("domain".data, v3), ("inverse".data, v4)] := by
  unfold StoreWF at h
  rcases d with _ | ⟨⟨a, v1⟩, _ | ⟨⟨b, v2⟩, _ | ⟨⟨c, v3⟩, _ | ⟨⟨e, v4⟩, rest⟩⟩⟩⟩ <;>
    simp_all

theorem dictAppend_keys {d d' : ReqDict} {k : List Char} {e : Entry}
    (h : dictAppend d k e = some d') : d'.map Prod.fst = d.map Prod.fst := by
  induction d generalizing d' with
  | nil => simp [dictAppend] at h
  | cons p rest ih =>
    obtain ⟨k0, v⟩ := p
    by_cases hk : k0 = k
    · subst hk
      simp [dictAppend] at h
      subst h
      simp
    · simp [dictAppend, hk] at h
      obtain ⟨t, ht, rfl⟩ := h
      simp [ih ht]

theorem add_requirement_keys {txt : List Char} {cr : Json} {now : Nat} {d d' : ReqDict}
    (h : add_requirement txt cr now d = some d') : d'.map Prod.fst = d.map Prod.fst := by
  unfold add_requirement at h
  split at h
  · split at h
    · exact dictAppend_keys h
    · exact absurd h (by simp)
  · exact absurd h (by simp)

theorem handleSubmission_keys (loads : List Char → Option Json) (gen : GenResult)
    (t1 t2 t3 : Nat) (input : List Char) (s : SessionState) :
    ((handleSubmission loads gen t1 t2 t3 input s).state).requirements.map Prod.fst =
      s.requirements.map Prod.fst := by
  unfold handleSubmission
  split
  · rfl
  · dsimp only
    split
    · rfl
    · next reqs2 heq =>
      split <;> exact add_requirement_keys heq

end ReqBot

namespace ReqBot

/-- On a well-formed store, a classification result carrying the three
fields (with a string label) is appended under the resolved key: the target
key's list grows by the new record, every other key's list is untouched,
and the store stays well-formed. -/
theorem add_requirement_success {cr : Json} (txt : List Char) (now : Nat)
    {d : ReqDict} (hwf : StoreWF d) {lbl : List Char}
    (hc : cr.lookup clsKey = some (Json.str lbl)) {rew expl : Json}
    (hr : cr.lookup rewKey = some rew) (he : cr.lookup explKey = some expl) :
    ∃ d', add_requirement txt cr now d = some d' ∧ StoreWF d' ∧
      lookupD d' (keyString (resolve_category lbl)) =
        (lookupD d (keyString (resolve_category lbl))).map
          (fun old => old ++ [⟨txt, rew, expl, now⟩]) ∧
      ∀ ck2 : CategoryKey, ck2 ≠ resolve_category lbl →
        lookupD d' (keyString ck2) = lookupD d (keyString ck2) := by
  obtain ⟨v1, v2, v3, v4, rfl⟩ := storeWF_cases hwf
  simp only [add_requirement, hc, hr, he]
  cases hck : resolve_category lbl <;>
    · refine ⟨_, rfl, rfl, rfl, ?_⟩
      intro ck2 hne
      cases ck2 <;> first | exact absurd rfl hne | rfl

end ReqBot

namespace ReqBot

/-! ### Claim theorems -/

/-- C1: the spec expects `"Non-Functional Requirement"` to resolve to
`non_functional`, but the code checks `functional` first and every
non-functional marker contains `functional` as a substring, so the label
resolves to `functional` and the `non_functional` key is unreachable; the
other four representative labels resolve as the spec says. -/
theorem c1_nonfunctional_label_misrouted :
    resolve_category "Non-Functional Requirement".data = CategoryKey.functional ∧
    resolve_category "Functional Requirement".data = CategoryKey.functional ∧
    resolve_category "Domain Requirement".data = CategoryKey.domain ∧
    resolve_category "Inverse Requirement".data = CategoryKey.inverse ∧
    resolve_category "banana".data = CategoryKey.functional ∧
    ∀ lbl : List Char,
      resolve_category lbl = CategoryKey.functional ∨
        resolve_category lbl = CategoryKey.domain ∨
        resolve_category lbl = CategoryKey.inverse :=
  ⟨by decide, by decide, by decide, by decide, by decide,
   resolve_category_never_non_functional⟩

/-- C2 counterexample: a response that decodes to an object missing all
three fields is returned unchanged by `classify_requirement`, not replaced
by the fallback (the returned object has no `classification` field, while
the fallback does). -/
theorem c2_missing_fields_returned_unchanged :
    classify_requirement loads0 (GenResult.ok emptyObjText) reqA = Json.obj [] ∧
    (Json.obj []).lookup clsKey = none ∧
    (fallbackResult reqA).lookup clsKey = some (Json.str "Unknown".data) :=
  ⟨rfl, rfl, rfl⟩

/-- C2 amended: for every non-empty requirement text, `classify_requirement`
returns the fixed fallback exactly on a transport error or a decode failure
of the fence-stripped body; any body that does decode — including an object
missing the three fields — is returned unmodified. -/
theorem c2_fallback_on_transport_or_decode_failure (loads : List Char → Option Json)
    (txt : List Char) (_h : txt ≠ []) :
    classify_requirement loads GenResult.error txt = fallbackResult txt ∧
    (∀ t, loads (strip_fences t) = none →
      classify_requirement loads (GenResult.ok t) txt = fallbackResult txt) ∧
    (∀ t v, loads (strip_fences t) = some v →
      classify_requirement loads (GenResult.ok t) txt = v) := by
  refine ⟨rfl, ?_, ?_⟩
  · intro t ht
    unfold classify_requirement
    dsimp only
    rw [ht]
  · intro t v ht
    unfold classify_requirement
    dsimp only
    rw [ht]

/-- C2 witness: the amended statement at a concrete transport failure. -/
theorem c2_fallback_witness :
    classify_requirement (fun _ => none) GenResult.error "a".data = fallbackResult "a".data :=
  (c2_fallback_on_transport_or_decode_failure (fun _ => none) "a".data (by decide)).1

/-- C3 counterexample: a response decoding to the empty object makes the
submission handler raise past the classify call (a `KeyError` inside
`add_requirement`), leaving the user turn appended but no stored
requirement and no assistant turn. -/
theorem c3_missing_fields_raise_past_classify :
    handleSubmission loads0 (GenResult.ok emptyObjText) 0 1 2 reqA initState =
      StepResult.raised
        { messages := [{ role := "user".data, content := reqA, category := none, timestamp := 0 }],
          requirements := initRequirements } :=
  rfl

/-- C3 amended: a submission completes without raising whenever the
classifier's result carries the three expected fields with a string label —
which is guaranteed on the fallback path, but not for decoded values lacking
a field. -/
theorem c3_completes_when_fields_present (loads : List Char → Option Json) (gen : GenResult)
    (t1 t2 t3 : Nat) (input : List Char) (s : SessionState)
    (h0 : input ≠ []) (hwf : StoreWF s.requirements)
    (hf : hasFields (classify_requirement loads gen input) = true) :
    ∃ s', handleSubmission loads gen t1 t2 t3 input s = StepResult.ok s' := by
  have hf' := hf
  unfold hasFields at hf'
  rw [Bool.and_eq_true, Bool.and_eq_true] at hf'
  obtain ⟨⟨h1, h2⟩, h3⟩ := hf'
  rcases e1 : (classify_requirement loads gen input).lookup clsKey with _ | v
  · rw [e1] at h1
    simp at h1
  rcases v with fields | lbl | t
  · rw [e1] at h1
    simp at h1
  rotate_left
  · rw [e1] at h1
    simp at h1
  rw [Option.isSome_iff_exists] at h2 h3
  obtain ⟨expl, e2⟩ := h2
  obtain ⟨rew, e3⟩ := h3
  obtain ⟨d', hadd, _, _, _⟩ := add_requirement_success input t2 hwf e1 e3 e2
  unfold handleSubmission
  rw [if_neg h0]
  dsimp only
  rw [hadd, e1, e2, e3]
  exact ⟨_, rfl⟩

/-- C3 witness: the amended statement at a concrete transport failure,
where the classifier falls back and the submission completes. -/
theorem c3_completes_witness :
    ∃ s', handleSubmission (fun _ => none) GenResult.error 0 1 2 "a".data initState =
      StepResult.ok s' :=
  c3_completes_when_fields_present (fun _ => none) GenResult.error 0 1 2 "a".data initState
    (by decide) rfl rfl

end ReqBot

namespace ReqBot

/-- C4: from any state whose store is well-formed, submitting the login
requirement with the classifier returning the mocked `Functional` result
appends one record with `original` equal to the input to the `functional`
list (raising its count by one), leaves the other three lists untouched,
and appends exactly the user turn followed by the assistant turn. -/
theorem c4_functional_submission (loads : List Char → Option Json) (gen : GenResult)
    (t1 t2 t3 : Nat) (s : SessionState) (hwf : StoreWF s.requirements)
    (hcls : classify_requirement loads gen inputC4 = mockCr) :
    ∃ s' old,
      handleSubmission loads gen t1 t2 t3 inputC4 s = StepResult.ok s' ∧
      lookupD s.requirements "functional".data = some old ∧
      lookupD s'.requirements "functional".data =
        some (old ++ [⟨inputC4, Json.str inputC4, Json.str "Describes a feature".data, t2⟩]) ∧
      (old ++ [(⟨inputC4, Json.str inputC4, Json.str "Describes a feature".data, t2⟩ : Entry)]).length
        = old.length + 1 ∧
      lookupD s'.requirements "non_functional".data = lookupD s.requirements "non_functional".data ∧
      lookupD s'.requirements "domain".data = lookupD s.requirements "domain".data ∧
      lookupD s'.requirements "inverse".data = lookupD s.requirements "inverse".data ∧
      s'.messages = s.messages ++
        [⟨"user".data, inputC4, none, t1⟩,
         ⟨"assistant".data,
          renderBot (Json.str "Functional".data) (Json.str "Describes a feature".data)
            (Json.str inputC4),
          some (Json.str "Functional".data), t3⟩] := by
  obtain ⟨msgs, reqs⟩ := s
  obtain ⟨v1, v2, v3, v4, rfl⟩ := storeWF_cases hwf
  unfold handleSubmission
  rw [if_neg (by decide : inputC4 ≠ [])]
  dsimp only
  rw [hcls]
  exact ⟨_, v1, rfl, rfl, rfl, by simp, rfl, rfl, rfl, by simp⟩

/-- C4 witness: the scenario run from the initial state with a decoder that
returns the mocked result. -/
theorem c4_functional_submission_witness :
    ∃ s' old,
      handleSubmission (fun _ => some mockCr) (GenResult.ok []) 0 1 2 inputC4 initState =
        StepResult.ok s' ∧
      lookupD initState.requirements "functional".data = some old ∧
      lookupD s'.requirements "functional".data =
        some (old ++ [⟨inputC4, Json.str inputC4, Json.str "Describes a feature".data, 1⟩]) ∧
      (old ++ [(⟨inputC4, Json.str inputC4, Json.str "Describes a feature".data, 1⟩ : Entry)]).length
        = old.length + 1 ∧
      lookupD s'.requirements "non_functional".data =
        lookupD initState.requirements "non_functional".data ∧
      lookupD s'.requirements "domain".data = lookupD initState.requirements "domain".data ∧
      lookupD s'.requirements "inverse".data = lookupD initState.requirements "inverse".data ∧
      s'.messages = initState.messages ++
        [⟨"user".data, inputC4, none, 0⟩,
         ⟨"assistant".data,
          renderBot (Json.str "Functional".data) (Json.str "Describes a feature".data)
            (Json.str inputC4),
          some (Json.str "Functional".data), 2⟩] :=
  c4_functional_submission (fun _ => some mockCr) (GenResult.ok []) 0 1 2 initState rfl rfl

/-- C5: each of the two clear handlers resets the session to the initial
state in one transition — all four store lists empty and the log empty in
the same observable state. -/
theorem c5_clear_resets_store_and_log (s : SessionState) :
    clearAllRequirements s = initState ∧ clearChat s = initState ∧
    initState.messages = [] ∧
    lookupD initState.requirements "functional".data = some [] ∧
    lookupD initState.requirements "non_functional".data = some [] ∧
    lookupD initState.requirements "domain".data = some [] ∧
    lookupD initState.requirements "inverse".data = some [] :=
  ⟨rfl, rfl, rfl, rfl, rfl, rfl, rfl⟩

/-- C6: in every reachable session state the store holds exactly the four
category keys, in their initialization order. -/
theorem c6_store_keys_invariant (s : SessionState) (h : Reachable s) :
    StoreWF s.requirements := by
  induction h with
  | init => rfl
  | submit loads gen t1 t2 t3 input hr ih =>
    unfold StoreWF at ih ⊢
    rw [handleSubmission_keys]
    exact ih
  | clearA hr ih => rfl
  | clearC hr ih => rfl

/-- C6 witness: the invariant at the initial state. -/
theorem c6_store_keys_witness : StoreWF initState.requirements :=
  c6_store_keys_invariant initState Reachable.init

/-- C7: the display pass renders exactly the last `min 10 length` turns of
the log as a suffix (hence in original order) and leaves the session state
— in particular the full log — unchanged. -/
theorem c7_display_truncation (s : SessionState) :
    (renderStep s).1 = s ∧
    (renderStep s).2 = displayedMessages s.messages ∧
    (displayedMessages s.messages).length = min 10 s.messages.length ∧
    s.messages.take (s.messages.length - 10) ++ displayedMessages s.messages = s.messages := by
  refine ⟨rfl, rfl, ?_, ?_⟩
  · simp only [displayedMessages, List.length_drop]
    omega
  · simp only [displayedMessages, List.take_append_drop]

/-- C8: `resolve_category` is a function of the label alone — equal labels
give equal keys — and always yields one of the four category keys. -/
theorem c8_pure_total_deterministic (l1 l2 : List Char) (h : l1 = l2) :
    resolve_category l1 = resolve_category l2 ∧
    (resolve_category l1 = CategoryKey.functional ∨
     resolve_category l1 = CategoryKey.non_functional ∨
     resolve_category l1 = CategoryKey.domain ∨
     resolve_category l1 = CategoryKey.inverse) := by
  subst h
  refine ⟨rfl, ?_⟩
  cases hr : resolve_category l1
  · exact Or.inl rfl
  · exact Or.inr (Or.inl rfl)
  · exact Or.inr (Or.inr (Or.inl rfl))
  · exact Or.inr (Or.inr (Or.inr rfl))

/-- C8 witness: determinism and totality at a concrete label. -/
theorem c8_witness :
    resolve_category "banana".data = resolve_category "banana".data ∧
    (resolve_category "banana".data = CategoryKey.functional ∨
     resolve_category "banana".data = CategoryKey.non_functional ∨
     resolve_category "banana".data = CategoryKey.domain ∨
     resolve_category "banana".data = CategoryKey.inverse) :=
  c8_pure_total_deterministic "banana".data "banana".data rfl

/-- C9: whenever classification fails (the classifier yields the fallback
result, whose label is `Unknown`), the default branch of the categorizer
fires and the record lands in the `functional` list, growing it by one
entry and leaving the other three lists untouched. -/
theorem c9_fallback_lands_in_functional (loads : List Char → Option Json) (gen : GenResult)
    (t1 t2 t3 : Nat) (input : List Char) (s : SessionState)
    (h0 : input ≠ []) (hwf : StoreWF s.requirements)
    (hfail : classify_requirement loads gen input = fallbackResult input) :
    resolve_category "Unknown".data = CategoryKey.functional ∧
    ∃ s' old,
      handleSubmission loads gen t1 t2 t3 input s = StepResult.ok s' ∧
      lookupD s.requirements "functional".data = some old ∧
      lookupD s'.requirements "functional".data =
        some (old ++ [⟨input, Json.str input, Json.str "Failed to classify".data, t2⟩]) ∧
      lookupD s'.requirements "non_functional".data = lookupD s.requirements "non_functional".data ∧
      lookupD s'.requirements "domain".data = lookupD s.requirements "domain".data ∧
      lookupD s'.requirements "inverse".data = lookupD s.requirements "inverse".data := by
  obtain ⟨msgs, reqs⟩ := s
  obtain ⟨v1, v2, v3, v4, rfl⟩ := storeWF_cases hwf
  refine ⟨by decide, ?_⟩
  unfold handleSubmission
  rw [if_neg h0]
  dsimp only
  rw [hfail]
  exact ⟨_, v1, rfl, rfl, rfl, rfl, rfl, rfl⟩

/-- C9 witness: a concrete transport failure from the initial state. -/
theorem c9_fallback_witness :
    resolve_category "Unknown".data = CategoryKey.functional ∧
    ∃ s' old,
      handleSubmission (fun _ => none) GenResult.error 0 1 2 reqA initState =
        StepResult.ok s' ∧
      lookupD initState.requirements "functional".data = some old ∧
      lookupD s'.requirements "functional".data =
        some (old ++ [⟨reqA, Json.str reqA, Json.str "Failed to classify".data, 1⟩]) ∧
      lookupD s'.requirements "non_functional".data =
        lookupD initState.requirements "non_functional".data ∧
      lookupD s'.requirements "domain".data = lookupD initState.requirements "domain".data ∧
      lookupD s'.requirements "inverse".data = lookupD initState.requirements "inverse".data :=
  c9_fallback_lands_in_functional (fun _ => none) GenResult.error 0 1 2 reqA initState
    (by decide) rfl rfl

/-- C10: on any successful transport, the classifier consults the decoder
exactly on the response with every `` ```json `` occurrence removed, then
every `` ``` `` occurrence removed, then surrounding whitespace stripped —
and the removal applies anywhere in the text, including inside a JSON
string value, as the concrete instance shows. -/
theorem c10_decoder_input (loads : List Char → Option Json) (r txt : List Char) :
    classify_requirement loads (GenResult.ok r) txt =
      Option.getD (loads (pyStrip (pyReplace (pyReplace r "```json".data []) "```".data [])))
        (fallbackResult txt) ∧
    strip_fences innerFenceText = innerFenceStripped := by
  constructor
  · unfold classify_requirement strip_fences
    dsimp only
    cases loads (pyStrip (pyReplace (pyReplace r "```json".data []) "```".data [])) <;> rfl
  · decide

end ReqBot
